import Mathlib

/-!
Verification development for the librelinkup-api polling server.

The JavaScript sources (`src/main_server.js` and the two unnamed variants
`src/unnamed/part_000`, `src/unnamed/part_001`) are shallowly embedded below:

* timestamps are modelled as integers (milliseconds since the epoch, the value
  of `Date.getTime()`); JS `number` arithmetic on such values is exact, so `Int`
  is faithful;
* the locale-dependent platform function `Date.toLocaleDateString()` is kept
  abstract as a parameter `localDate : Int → String` (two instants fall on the
  same local calendar day exactly when the strings coincide, as in the source);
* `Math.round` is `round` on `ℚ` (both are floor of x + 1/2); glucose
  conversions are modelled over `ℚ`, which agrees with IEEE doubles here
  because the rounding argument `5*v/9` is never within double error of a tie;
* ambient state (current time, the mutable `baseURL`, the HTTP responses of
  the upstream API) is passed explicitly; the two upstream endpoints are
  oracles `loginOracle : String → LoginResponse` (response of the login POST
  as a function of the current base URL) and
  `continueOracle : String → String → LoginResponse` (response of the
  continuation POST as a function of step type and bearer token);
* the unbounded `while` loops of `doLoginFlow` take explicit fuel;
* fallible JS code (thrown exceptions) returns `Except String`.
-/

/-! ## Data model -/

/-- One entry of `latestMeasurements.json`: the object pushed in
`fetchAndStoreMeasurement` (`src/main_server.js` lines 369-373).
`Timestamp` is the stored instant in milliseconds since the epoch. -/
structure Measurement where
  Timestamp : Int
  ValueInMgPerDl : Int
  TrendArrow : Int
deriving DecidableEq

/-- Sensor object of a connection entry (`sn`, `a`, `pt` fields). -/
structure Sensor where
  sn : String
  a : Int
  pt : Int
deriving DecidableEq

/-- One entry of the `/llu/connections` listing, as destructured at
`src/main_server.js` line 328. -/
structure Connection where
  patientId : String
  firstName : String
  lastName : String
  sensor : Option Sensor
deriving DecidableEq

/-- The persisted `cache.json` object.  Absent JS fields are `none`. -/
structure CacheObj where
  token : Option String := none
  userId : Option String := none
  accountIdHash : Option String := none
  patientId : Option String := none
  firstName : Option String := none
  lastName : Option String := none
  sensor : Option Sensor := none
deriving DecidableEq

/-- JS truthiness test for an optional string field: `!x` holds when the field
is absent (`undefined`) or the empty string. -/
def isFalsyStr : Option String → Bool
  | none => true
  | some s => s = ""

/-! ## Trend and unit engine (`src/main_server.js` lines 209-243, 408) -/

/-- Embedding of `arrowToEmoji` (lines 209-218). -/
def arrowToEmoji (num : Int) : String :=
  if num = 1 then "⬇️"
  else if num = 2 then "↘️"
  else if num = 3 then "➡️"
  else if num = 4 then "↗️"
  else if num = 5 then "⬆️"
  else "❓"

/-- Embedding of `computeSinceLastTrendArrowNumber` (lines 220-226), the
`classifyDelta` of the specification.  The guards are kept in source order. -/
def computeSinceLastTrendArrowNumber (diff : Int) : Int :=
  if diff = 0 then 3
  else if 0 < diff ∧ diff ≤ 5 then 4
  else if 5 < diff then 5
  else if diff < 0 ∧ -5 ≤ diff then 2
  else 1

/-- The specification's description of `classifyDelta`, written from the
spec's words (diff == 0 → 3; 0 < diff ≤ 5 → 4; diff > 5 → 5;
−5 ≤ diff < 0 → 2; diff < −5 → 1), to be compared with the embedding. -/
def classifyDelta_spec (diff : Int) : Int :=
  if diff = 0 then 3
  else if 0 < diff ∧ diff ≤ 5 then 4
  else if 5 < diff then 5
  else if -5 ≤ diff ∧ diff < 0 then 2
  else 1

/-- Embedding of `measurementColorName` (lines 235-243). -/
def measurementColorName (num : Int) : String :=
  if num = 1 then "green"
  else if num = 2 then "yellow"
  else if num = 3 then "orange"
  else if num = 4 then "red"
  else "unknown"

/-- Embedding of the mmol conversion
`Math.round((latest.ValueInMgPerDl / 18) * 10) / 10` (line 408).
`Math.round x = ⌊x + 1/2⌋`, which is Mathlib's `round` on `ℚ`. -/
def toMmol (v : Int) : ℚ :=
  ((round ((v : ℚ) / 18 * 10) : ℤ) : ℚ) / 10

/-- Rounding half away from zero at integer precision, as named by the
specification for `toMmol`. -/
def roundHalfAwayFromZero (q : ℚ) : ℤ :=
  if 0 ≤ q then ⌊q + 1 / 2⌋ else ⌈q - 1 / 2⌉

/-- The specification's description of `toMmol`:
`round(valueMgPerDl / 18 × 10) / 10`, round-half-away-from-zero. -/
def toMmol_spec (v : Int) : ℚ :=
  ((roundHalfAwayFromZero ((v : ℚ) / 18 * 10) : ℤ) : ℚ) / 10

/-! ## Scheduler (`src/main_server.js` lines 272-287, variant
`src/unnamed/part_001` lines 273-288) -/

/-- Embedding of `scheduleNextFetch` of `src/main_server.js`: interval
120000 ms plus a 3 s offset; a delay below the 1000 ms floor is replaced by
the 30000 ms fallback.  `lastTimestamp` and `now` are epoch milliseconds. -/
def scheduleNextFetch (lastTimestamp now : Int) : Int :=
  let offsetSeconds : Int := 3
  let nextDate := lastTimestamp + 120000
  let finalDate := nextDate + offsetSeconds * 1000
  let delayMs := finalDate - now
  if delayMs < 1000 then 30000 else delayMs

/-- Embedding of `scheduleNextFetch` of `src/unnamed/part_001`, which is
identical except for the 60000 ms interval. -/
def scheduleNextFetch_p1 (lastTimestamp now : Int) : Int :=
  let offsetSeconds : Int := 3
  let nextDate := lastTimestamp + 60000
  let finalDate := nextDate + offsetSeconds * 1000
  let delayMs := finalDate - now
  if delayMs < 1000 then 30000 else delayMs

/-! ## Measurement log (`src/main_server.js` lines 106-138, 349-374) -/

/-- Embedding of `purgeOldMeasurements` (lines 131-138): keep exactly the
entries whose local calendar date string equals the one of `now`.
`localDate` abstracts the platform function
`ts ↦ new Date(ts).toLocaleDateString()`. -/
def purgeOldMeasurements (localDate : Int → String) (now : Int)
    (arr : List Measurement) : List Measurement :=
  arr.filter fun m => localDate m.Timestamp == localDate now

/-- The store step of `fetchAndStoreMeasurement` (lines 349-374), the
`recordReading` of the specification: load the log (`arr`), purge entries of
other days, append the new reading unconditionally, persist the result (the
returned list is the new file content). -/
def recordReading (localDate : Int → String) (now : Int)
    (arr : List Measurement) (r : Measurement) : List Measurement :=
  purgeOldMeasurements localDate now arr ++ [r]

/-- The since-last-trend computation of `fetchAndStoreMeasurement`
(lines 353-366), applied to the already purged log: `N/A` when the log is
empty or the previous entry is more than 24 minutes older than the parsed
new reading, otherwise the emoji of the classified value delta. -/
def sinceLastTrendEmoji (measurementsArr : List Measurement)
    (parsedDate : Int) (newValue : Int) : String :=
  match measurementsArr.getLast? with
  | none => "N/A"
  | some prev =>
    let diffMinutes : ℚ := ((parsedDate - prev.Timestamp : Int) : ℚ) / 1000 / 60
    if diffMinutes ≤ 24 then
      arrowToEmoji (computeSinceLastTrendArrowNumber (newValue - prev.ValueInMgPerDl))
    else "N/A"

/-! ## Claim C5 -/

/-- C5: `computeSinceLastTrendArrowNumber` always lands in {1..5}, matches the
spec's piecewise description (so 0 ↦ 3 takes precedence over the negative
branch), and takes the stated values at the threshold edges 5, 6, −5, −6. -/
theorem computeSinceLastTrendArrowNumber_spec :
    (∀ diff : Int,
      computeSinceLastTrendArrowNumber diff = classifyDelta_spec diff ∧
      (computeSinceLastTrendArrowNumber diff = 1 ∨
       computeSinceLastTrendArrowNumber diff = 2 ∨
       computeSinceLastTrendArrowNumber diff = 3 ∨
       computeSinceLastTrendArrowNumber diff = 4 ∨
       computeSinceLastTrendArrowNumber diff = 5)) ∧
    computeSinceLastTrendArrowNumber 0 = 3 ∧
    computeSinceLastTrendArrowNumber 5 = 4 ∧
    computeSinceLastTrendArrowNumber 6 = 5 ∧
    computeSinceLastTrendArrowNumber (-5) = 2 ∧
    computeSinceLastTrendArrowNumber (-6) = 1 := by
  refine ⟨fun diff => ⟨?_, ?_⟩, by decide, by decide, by decide, by decide, by decide⟩
  · unfold computeSinceLastTrendArrowNumber classifyDelta_spec
    split_ifs <;> omega
  · unfold computeSinceLastTrendArrowNumber
    split_ifs <;> omega

/-! ## Claim C2 -/

/-- C2: on a successful cycle the next delay is
`lastTimestamp + 120000 + 3000 - now` whenever that difference reaches the
1000 ms floor, and the 30000 ms fallback otherwise; in both cases the
returned delay is strictly positive.  The `part_001` variant behaves the same
with its 60000 ms interval. -/
theorem scheduleNextFetch_spec (lastTimestamp now : Int) :
    (1000 ≤ lastTimestamp + 120000 + 3000 - now →
      scheduleNextFetch lastTimestamp now = lastTimestamp + 120000 + 3000 - now) ∧
    (lastTimestamp + 120000 + 3000 - now < 1000 →
      scheduleNextFetch lastTimestamp now = 30000) ∧
    0 < scheduleNextFetch lastTimestamp now ∧
    (1000 ≤ lastTimestamp + 60000 + 3000 - now →
      scheduleNextFetch_p1 lastTimestamp now = lastTimestamp + 60000 + 3000 - now) ∧
    (lastTimestamp + 60000 + 3000 - now < 1000 →
      scheduleNextFetch_p1 lastTimestamp now = 30000) ∧
    0 < scheduleNextFetch_p1 lastTimestamp now := by
  unfold scheduleNextFetch scheduleNextFetch_p1
  refine ⟨?_, ?_, ?_, ?_, ?_, ?_⟩ <;> simp only [] <;> split_ifs <;> omega

/-- Witness for C2: the spec's own scenario, a reading 58 s old with the
120 s interval gives a genuine positive delay; a target already in the past
is clamped to the 30000 ms fallback. -/
theorem scheduleNextFetch_spec_witness :
    scheduleNextFetch 0 58000 = 65000 ∧ scheduleNextFetch 0 200000 = 30000 := by
  constructor
  · exact (scheduleNextFetch_spec 0 58000).1 (by decide)
  · exact (scheduleNextFetch_spec 0 200000).2.1 (by decide)

/-! ## Claim C6 -/

/-- Helper for C6: `5*v/9 + 1/2` is never an integer (its reduced numerator
`10*v + 9` is odd while the denominator `18` is even), so for integer mg/dL
inputs `Math.round` never actually meets a tie. -/
theorem toMmol_arg_add_half_ne_int (v n : Int) :
    ((v : ℚ) / 18 * 10 + 1 / 2) ≠ (n : ℚ) := by
  intro h
  have h18 : (v : ℚ) * 20 + 18 = (n : ℚ) * 36 := by
    field_simp at h
    linarith
  have h18z : v * 20 + 18 = n * 36 := by exact_mod_cast h18
  omega

/-- C6: for every integer mg/dL value the conversion equals the spec's
round-half-away-from-zero formula (ties never occur, so floor-of-plus-half
and half-away-from-zero coincide), and the two spec examples hold:
`toMmol 180 = 10.0`, `toMmol 100 = 5.6`. -/
theorem toMmol_spec_eq :
    (∀ v : Int, toMmol v = toMmol_spec v) ∧
    toMmol 180 = 10 ∧ toMmol 100 = 56 / 10 := by
  refine ⟨fun v => ?_, by norm_num [toMmol, round_eq], by norm_num [toMmol, round_eq]⟩
  unfold toMmol toMmol_spec roundHalfAwayFromZero
  by_cases h : (0 : ℚ) ≤ (v : ℚ) / 18 * 10
  · rw [if_pos h, round_eq]
  · rw [if_neg h, round_eq]
    have hfle := Int.floor_le ((v : ℚ) / 18 * 10 + 1 / 2)
    have hflt := Int.lt_floor_add_one ((v : ℚ) / 18 * 10 + 1 / 2)
    have hne := toMmol_arg_add_half_ne_int v ⌊(v : ℚ) / 18 * 10 + 1 / 2⌋
    have hlt : (⌊(v : ℚ) / 18 * 10 + 1 / 2⌋ : ℚ) < (v : ℚ) / 18 * 10 + 1 / 2 :=
      lt_of_le_of_ne hfle fun hh => hne hh.symm
    have hceil : ⌈(v : ℚ) / 18 * 10 - 1 / 2⌉ = ⌊(v : ℚ) / 18 * 10 + 1 / 2⌋ := by
      rw [Int.ceil_eq_iff]
      constructor
      · linarith
      · linarith
    rw [hceil]

/-! ## Claim C7 -/

/-- C7: the since-last trend is the delta classification exactly when the
(purged) log is non-empty and the new reading is at most 24 minutes after the
previous stored reading; with an empty log or a larger gap the published
value is the unavailable marker `N/A`. -/
theorem sinceLastTrend_freshness (arr : List Measurement) (parsedDate newValue : Int) :
    (arr = [] → sinceLastTrendEmoji arr parsedDate newValue = "N/A") ∧
    (∀ prev, arr.getLast? = some prev →
      (24 : ℚ) < ((parsedDate - prev.Timestamp : Int) : ℚ) / 1000 / 60 →
      sinceLastTrendEmoji arr parsedDate newValue = "N/A") ∧
    (∀ prev, arr.getLast? = some prev →
      ((parsedDate - prev.Timestamp : Int) : ℚ) / 1000 / 60 ≤ 24 →
      sinceLastTrendEmoji arr parsedDate newValue =
        arrowToEmoji (computeSinceLastTrendArrowNumber (newValue - prev.ValueInMgPerDl))) := by
  refine ⟨?_, ?_, ?_⟩
  · intro h
    subst h
    rfl
  · intro prev hlast hgt
    simp only [sinceLastTrendEmoji, hlast]
    rw [if_neg (by linarith)]
  · intro prev hlast hle
    simp only [sinceLastTrendEmoji, hlast]
    rw [if_pos hle]

/-- Witness for C7: empty log gives `N/A`; a 25-minute-old previous entry
gives `N/A`; a 1-minute-old previous entry gives the classified delta. -/
theorem sinceLastTrend_freshness_witness :
    sinceLastTrendEmoji [] 0 0 = "N/A" ∧
    sinceLastTrendEmoji [⟨0, 100, 3⟩] 1500000 100 = "N/A" ∧
    sinceLastTrendEmoji [⟨0, 100, 3⟩] 60000 105 =
      arrowToEmoji (computeSinceLastTrendArrowNumber (105 - 100)) := by
  refine ⟨(sinceLastTrend_freshness [] 0 0).1 rfl, ?_, ?_⟩
  · exact (sinceLastTrend_freshness [⟨0, 100, 3⟩] 1500000 100).2.1 ⟨0, 100, 3⟩ rfl (by norm_num)
  · exact (sinceLastTrend_freshness [⟨0, 100, 3⟩] 60000 105).2.2 ⟨0, 100, 3⟩ rfl (by norm_num)

/-! ## Claim C10 -/

/-- C10: `recordReading` appends unconditionally: the persisted log is the
today-filtered prior log with the new reading last (length kept + 1), the
new reading is counted even when an identical entry is already last (no
deduplication), and refetching an unchanged reading yields since-last delta 0,
classified stable. -/
theorem recordReading_append (localDate : Int → String) (now : Int)
    (arr : List Measurement) (r : Measurement) :
    recordReading localDate now arr r = purgeOldMeasurements localDate now arr ++ [r] ∧
    (recordReading localDate now arr r).length =
      (purgeOldMeasurements localDate now arr).length + 1 ∧
    (recordReading localDate now arr r).getLast? = some r ∧
    (recordReading localDate now arr r).count r =
      (purgeOldMeasurements localDate now arr).count r + 1 ∧
    (∀ arr2 prev, arr2.getLast? = some prev →
      sinceLastTrendEmoji arr2 prev.Timestamp prev.ValueInMgPerDl = arrowToEmoji 3) := by
  refine ⟨rfl, by simp [recordReading], by simp [recordReading], ?_, ?_⟩
  · simp [recordReading, List.count_append]
  · intro arr2 prev hlast
    simp [sinceLastTrendEmoji, hlast, computeSinceLastTrendArrowNumber]

/-- Witness for C10: a log whose last entry equals the refetched reading
publishes the stable arrow for the duplicate. -/
theorem recordReading_append_witness :
    sinceLastTrendEmoji [⟨5, 120, 3⟩] 5 120 = arrowToEmoji 3 :=
  (recordReading_append (fun _ => "d") 0 [] ⟨5, 120, 3⟩).2.2.2.2
    [⟨5, 120, 3⟩] ⟨5, 120, 3⟩ rfl

/-! ## Claim C1 -/

/-- Concrete local-date function used to instantiate the abstract
`toLocaleDateString` in the C1 counterexample: instants before the epoch's
day 1 print as one date string, later instants as another. -/
def localDateJan (ts : Int) : String :=
  if ts < 86400000 then "1/1/2025" else "1/2/2025"

/-- Counterexample to C1 as stated: `recordReading` appends the new reading
without checking its date, so when the fetched reading is timestamped on the
previous local day (instant 0, day one) while the log is written "today"
(instant 86400000, day two), the persisted log contains an entry whose local
date differs from today's. -/
theorem recordReading_today_counterexample :
    ¬ ∀ m ∈ recordReading localDateJan 86400000 [] ⟨0, 100, 3⟩,
        localDateJan m.Timestamp = localDateJan 86400000 := by
  decide

/-- C1 amended: after `recordReading`, every entry kept from the prior log has
local date equal to today's; the appended reading is the only possible
exception, and the full invariant holds exactly when the new reading itself
is dated today. -/
theorem recordReading_today_amended (localDate : Int → String) (now : Int)
    (arr : List Measurement) (r : Measurement) :
    (∀ m ∈ purgeOldMeasurements localDate now arr, localDate m.Timestamp = localDate now) ∧
    (∀ m ∈ recordReading localDate now arr r,
      localDate m.Timestamp = localDate now ∨ m = r) ∧
    (localDate r.Timestamp = localDate now →
      ∀ m ∈ recordReading localDate now arr r, localDate m.Timestamp = localDate now) := by
  have h1 : ∀ m ∈ purgeOldMeasurements localDate now arr,
      localDate m.Timestamp = localDate now := by
    intro m hm
    simp only [purgeOldMeasurements, List.mem_filter, beq_iff_eq] at hm
    exact hm.2
  refine ⟨h1, ?_, ?_⟩
  · intro m hm
    simp only [recordReading, List.mem_append, List.mem_singleton] at hm
    rcases hm with hm | hm
    · exact Or.inl (h1 m hm)
    · exact Or.inr hm
  · intro hr m hm
    simp only [recordReading, List.mem_append, List.mem_singleton] at hm
    rcases hm with hm | hm
    · exact h1 m hm
    · rw [hm]
      exact hr

/-- Witness for C1 amended: a reading dated today keeps the whole-log
invariant. -/
theorem recordReading_today_amended_witness :
    localDateJan 0 = localDateJan 1000 ∧
    ∀ m ∈ recordReading localDateJan 1000 [] ⟨0, 100, 3⟩,
      localDateJan m.Timestamp = localDateJan 1000 :=
  ⟨rfl, (recordReading_today_amended localDateJan 1000 [] ⟨0, 100, 3⟩).2.2 rfl⟩

/-! ## Persistence reads (`src/main_server.js` lines 88-97, 106-121) -/

/-- Embedding of `readCache` (lines 88-97): a missing file or a parse failure
yields the empty object.  `parsed` is the outcome of `JSON.parse` on the raw
file content (a successfully parsed document with the wrong shape is a
`CacheObj` whose fields are all absent). -/
def readCache (fileExists : Bool) (parsed : Except String CacheObj) : CacheObj :=
  if fileExists then
    match parsed with
    | .ok v => v
    | .error _ => {}
  else {}

/-- Embedding of `readMeasurementsFile` (lines 106-121): a missing file, a
parse failure, or a parsed document that is not an array (`.ok none`) all
yield the empty list. -/
def readMeasurementsFile (fileExists : Bool)
    (parsed : Except String (Option (List Measurement))) : List Measurement :=
  if fileExists then
    match parsed with
    | .ok (some arr) => arr
    | .ok none => []
    | .error _ => []
  else []

/-- The credential check at the start of `fetchAndStoreMeasurement`
(line 299): re-login is forced when any of the three session fields is
absent or empty. -/
def needsLogin (cacheObj : CacheObj) : Bool :=
  isFalsyStr cacheObj.token || isFalsyStr cacheObj.userId || isFalsyStr cacheObj.accountIdHash

/-! ## Claim C9 -/

/-- C9: both store readers are total and return the empty default on any
parse failure (and on a non-array measurements document); the resulting empty
session cache makes the next cycle take the re-login path. -/
theorem readStore_parse_failure_defaults (e : String) :
    readCache true (.error e) = {} ∧
    readCache false (.error e) = {} ∧
    readMeasurementsFile true (.error e) = [] ∧
    readMeasurementsFile true (.ok none) = [] ∧
    readMeasurementsFile false (.error e) = [] ∧
    needsLogin (readCache true (.error e)) = true :=
  ⟨rfl, rfl, rfl, rfl, rfl, rfl⟩

/-! ## Auth and session manager (`src/main_server.js` lines 143-204) -/

/-- The `authTicket` object of a login response. -/
structure AuthTicket where
  token : String
deriving DecidableEq

/-- The `user` object of a login response. -/
structure LoginUser where
  id : String
deriving DecidableEq

/-- The `step` object of a continuation-required login response. -/
structure LoginStep where
  type : String
deriving DecidableEq

/-- The `data` object of an upstream login/continuation response.  Absent JS
fields are `none`; `redirect` is the truthiness of `data.redirect`. -/
structure LoginData where
  redirect : Bool := false
  region : Option String := none
  authTicket : Option AuthTicket := none
  user : Option LoginUser := none
  step : Option LoginStep := none
deriving DecidableEq

/-- An upstream response body: numeric `status` plus `data`. -/
structure LoginResponse where
  status : Int
  data : LoginData
deriving DecidableEq

/-- The session produced by `doLoginFlow` (line 184). -/
structure Session where
  token : String
  userId : String
  accountIdHash : String
deriving DecidableEq

/-- Embedding of `updateBaseURL` of `src/main_server.js` (lines 147-151):
the new value of the mutable `baseURL`. -/
def updateBaseURL (region : String) : String :=
  "https://api-" ++ region ++ ".libreview.io"

/-- Embedding of `updateBaseURL` of `src/unnamed/part_001` (lines 147-152),
where the regional assignment is commented out and the base URL is reset to
the global default, ignoring the region argument. -/
def updateBaseURL_p1 (_region : String) : String :=
  "https://api.libreview.io"

/-- Embedding of `doAuthContinue` (lines 194-204): extract the step type and
the short-lived token from the previous response (failing when either is
absent or empty, as JS truthiness does), then POST to
`/auth/continue/{stepType}` with the token as bearer credential.
`continueOracle step token` is the upstream response of that POST. -/
def doAuthContinue (continueOracle : String → String → LoginResponse)
    (prevResponse : LoginResponse) : Except String LoginResponse :=
  match prevResponse.data.step, prevResponse.data.authTicket with
  | some step, some ticket =>
    if step.type = "" ∨ ticket.token = "" then
      .error "Missing step type or token for status=4"
    else .ok (continueOracle step.type ticket.token)
  | _, _ => .error "Missing step type or token for status=4"

/-- The `while (respData?.status === 4)` loop of `doLoginFlow`
(lines 170-172), with explicit fuel for the unbounded JS loop. -/
def continueLoop (continueOracle : String → String → LoginResponse) :
    Nat → LoginResponse → Except String LoginResponse
  | 0, _ => .error "continuation loop exhausted fuel"
  | fuel + 1, respData =>
    if respData.status = 4 then
      match doAuthContinue continueOracle respData with
      | .ok next => continueLoop continueOracle fuel next
      | .error e => .error e
    else .ok respData

/-- The `while (respData?.data?.redirect)` loop of `doLoginFlow`
(lines 160-167): on a redirect, switch the base address with `updBase` and
repeat the login POST there.  Returns the final response, the final base
address, and the number of `updateBaseURL` calls (instrumentation counting
the base-address switches).  `loginOracle b` is the upstream response of the
login POST against base address `b`. -/
def redirectLoop (loginOracle : String → LoginResponse) (updBase : String → String) :
    Nat → String → Nat → LoginResponse → Except String (LoginResponse × String × Nat)
  | 0, _, _, _ => .error "redirect loop exhausted fuel"
  | fuel + 1, base, updates, respData =>
    if respData.data.redirect then
      match respData.data.region with
      | some region =>
        if region = "" then .error "redirect=true but no region specified"
        else
          redirectLoop loginOracle updBase fuel (updBase region) (updates + 1)
            (loginOracle (updBase region))
      | none => .error "redirect=true but no region specified"
    else .ok (respData, base, updates)

/-- Embedding of `doLoginFlow` (lines 156-185), parameterized by the
base-address update function so that both source variants are instances:
initial login POST, redirect loop, continuation loop, then a final status-0
check and extraction of token, user id, and the account hash
`digest(userId)` (`digest` abstracts `sha256Hex`).  Returns the session
together with the final base address and the number of base switches. -/
def doLoginFlowWith (updBase : String → String) (loginOracle : String → LoginResponse)
    (continueOracle : String → String → LoginResponse) (digest : String → String)
    (fuel : Nat) (base : String) : Except String (Session × String × Nat) :=
  match redirectLoop loginOracle updBase fuel base 0 (loginOracle base) with
  | .error e => .error e
  | .ok (resp1, base1, updates) =>
    match continueLoop continueOracle fuel resp1 with
    | .error e => .error e
    | .ok respData =>
      if respData.status = 0 then
        match respData.data.authTicket, respData.data.user with
        | some ticket, some user =>
          .ok ({ token := ticket.token, userId := user.id,
                 accountIdHash := digest user.id }, base1, updates)
        | _, _ => .error "login response missing authTicket or user"
      else .error "Login flow did not reach status=0"

/-- The login flow of `src/main_server.js`, with its regional
`updateBaseURL`. -/
def doLoginFlow := doLoginFlowWith updateBaseURL

/-- The login flow of `src/unnamed/part_001`, whose `updateBaseURL` ignores
the region. -/
def doLoginFlow_p1 := doLoginFlowWith updateBaseURL_p1

/-! ## Claim C3 -/

/-- C3: on a continuation-required response (status 4) the flow extracts the
step type and short-lived token, POSTs to the continuation endpoint with
that token, and replaces the working response with the result (first
conjunct, one loop iteration for any status-4 response); when the original
login response has status 4 and the continuation response terminates with
status 0, the returned session's bearer token and user identifier come from
the continuation response, not from the original login response. -/
theorem authContinuation_flow (loginOracle : String → LoginResponse)
    (continueOracle : String → String → LoginResponse) (digest : String → String)
    (fuel : Nat) (base : String) (L R : LoginResponse) (st tok tok2 uid : String) :
    (∀ resp step ticket, resp.status = 4 → resp.data.step = some step →
      resp.data.authTicket = some ticket → step.type ≠ "" → ticket.token ≠ "" →
      continueLoop continueOracle (fuel + 1) resp =
        continueLoop continueOracle fuel (continueOracle step.type ticket.token)) ∧
    (loginOracle base = L → L.data.redirect = false → L.status = 4 →
      L.data.step = some ⟨st⟩ → L.data.authTicket = some ⟨tok⟩ →
      st ≠ "" → tok ≠ "" →
      continueOracle st tok = R → R.status = 0 →
      R.data.authTicket = some ⟨tok2⟩ → R.data.user = some ⟨uid⟩ →
      doLoginFlow loginOracle continueOracle digest (fuel + 1 + 1) base =
        .ok ({ token := tok2, userId := uid, accountIdHash := digest uid }, base, 0)) := by
  constructor
  · intro resp step ticket h4 hstep hticket hst htok
    simp [continueLoop, doAuthContinue, h4, hstep, hticket, hst, htok]
  · intro hL hred h4 hstep hticket hst htok hcont hR0 hRt hRu
    obtain ⟨Ls, Lred, Lreg, Lticket, Luser, Lstep⟩ := L
    obtain ⟨Rs, Rred, Rreg, Rticket, Ruser, Rstep⟩ := R
    dsimp only at h4 hred hstep hticket hR0 hRt hRu
    subst h4 hred hstep hticket hR0 hRt hRu
    unfold doLoginFlow doLoginFlowWith
    rw [hL]
    simp [redirectLoop, continueLoop, doAuthContinue, hcont, hst, htok]

/-- A concrete continuation-required login response (status 4 with a step
type and a short-lived token). -/
def contStepResp : LoginResponse :=
  { status := 4, data := { authTicket := some ⟨"shortTok"⟩, step := some ⟨"tou"⟩ } }

/-- A concrete final continuation response (status 0 with the definitive
token and user). -/
def contDoneResp : LoginResponse :=
  { status := 0, data := { authTicket := some ⟨"finalTok"⟩, user := some ⟨"user1"⟩ } }

/-- Witness for C3: a status-4 login response followed by a status-0
continuation response yields the session built from the continuation
response's token and user, not from the login response's short-lived token. -/
theorem authContinuation_flow_witness :
    doLoginFlow (fun _ => contStepResp) (fun _ _ => contDoneResp) (fun s => s)
        (0 + 1 + 1) "https://api.libreview.io" =
      .ok ({ token := "finalTok", userId := "user1", accountIdHash := "user1" },
           "https://api.libreview.io", 0) :=
  (authContinuation_flow (fun _ => contStepResp) (fun _ _ => contDoneResp) (fun s => s) 0
      "https://api.libreview.io" contStepResp contDoneResp "tou" "shortTok" "finalTok"
      "user1").2
    rfl rfl rfl rfl rfl (by decide) (by decide) rfl rfl rfl rfl

/-! ## Claim C4 -/

/-- C4 amended: in `src/main_server.js` a region redirect switches the base
address to the regional endpoint `https://api-{R}.libreview.io`; a single
redirect followed by a status-0 login yields the session with the base
address switched exactly once (the update counter is 1), and the returned
final base address is the one kept for all subsequent upstream calls. -/
theorem regionRedirect_amended (loginOracle : String → LoginResponse)
    (continueOracle : String → String → LoginResponse) (digest : String → String)
    (fuel : Nat) (base R tok uid : String) (r1 r2 : LoginResponse) :
    updateBaseURL R = "https://api-" ++ R ++ ".libreview.io" ∧
    (loginOracle base = r1 → r1.data.redirect = true → r1.data.region = some R → R ≠ "" →
      loginOracle (updateBaseURL R) = r2 → r2.data.redirect = false → r2.status = 0 →
      r2.data.authTicket = some ⟨tok⟩ → r2.data.user = some ⟨uid⟩ →
      doLoginFlow loginOracle continueOracle digest (fuel + 1 + 1) base =
        .ok ({ token := tok, userId := uid, accountIdHash := digest uid },
             updateBaseURL R, 1)) := by
  constructor
  · rfl
  · intro h1 hred1 hreg hR h2 hred2 h0 ht hu
    obtain ⟨s1, d1red, d1reg, d1t, d1u, d1s⟩ := r1
    obtain ⟨s2, d2red, d2reg, d2t, d2u, d2s⟩ := r2
    dsimp only at hred1 hreg hred2 h0 ht hu
    subst hred1 hreg hred2 h0 ht hu
    unfold doLoginFlow doLoginFlowWith
    rw [h1]
    simp [redirectLoop, continueLoop, h2, hR]

/-- A concrete login response ordering a redirect to region `eu`. -/
def redirectResp : LoginResponse :=
  { status := 0, data := { redirect := true, region := some "eu" } }

/-- A concrete successful login response served by the regional endpoint. -/
def regionOkResp : LoginResponse :=
  { status := 0, data := { authTicket := some ⟨"tokEU"⟩, user := some ⟨"userEU"⟩ } }

/-- The upstream login endpoint for the C4 scenarios: the global endpoint
redirects to region `eu`, the regional endpoint accepts the login. -/
def loginOracleEU : String → LoginResponse := fun b =>
  if b = "https://api-eu.libreview.io" then regionOkResp else redirectResp

/-- Witness for C4 amended: the concrete redirect-then-success scenario ends
with the base address switched to `https://api-eu.libreview.io` exactly
once. -/
theorem regionRedirect_amended_witness :
    doLoginFlow loginOracleEU (fun _ _ => regionOkResp) (fun s => s) (2 + 1 + 1)
        "https://api.libreview.io" =
      .ok ({ token := "tokEU", userId := "userEU", accountIdHash := "userEU" },
           updateBaseURL "eu", 1) :=
  (regionRedirect_amended loginOracleEU (fun _ _ => regionOkResp) (fun s => s) 2
      "https://api.libreview.io" "eu" "tokEU" "userEU" redirectResp regionOkResp).2
    rfl rfl rfl (by decide) rfl rfl rfl rfl rfl

/-- Counterexample to C4 as stated: in the `src/unnamed/part_001` variant,
`updateBaseURL` resets the base address to the global default and ignores
the indicated region, so a redirect to region `eu` never switches the
endpoint to `https://api-eu.libreview.io`; against a redirecting upstream
the part_001 flow just repeats the login at the default endpoint until its
fuel (the unbounded JS loop) gives out. -/
theorem regionRedirect_counterexample :
    updateBaseURL_p1 "eu" = "https://api.libreview.io" ∧
    updateBaseURL_p1 "eu" ≠ updateBaseURL "eu" ∧
    doLoginFlow_p1 loginOracleEU (fun _ _ => regionOkResp) (fun s => s) 4
        "https://api.libreview.io" =
      .error "redirect loop exhausted fuel" := by
  refine ⟨rfl, by decide, ?_⟩
  rfl

/-! ## Patient/sensor resolver (`src/main_server.js` lines 317-332,
`src/unnamed/part_001` lines 322-343) -/

/-- The cache update performed by `src/unnamed/part_001` lines 336-340:
the first connection's patient id, names, and sensor object are written
into the durable session cache. -/
def cacheWithProfile (cacheObj : CacheObj) (c : Connection) : CacheObj :=
  { cacheObj with patientId := some c.patientId, firstName := some c.firstName,
                  lastName := some c.lastName, sensor := c.sensor }

/-- Embedding of the subject-resolution step of `fetchAndStoreMeasurement`
in `src/unnamed/part_001` (lines 322-343): when no patient id is cached
(JS-falsy field), the `/llu/connections` listing is requested, the first
entry's profile is written into the durable cache, and an empty listing
skips the cycle; otherwise the cached profile is used unchanged and no
listing request is made.  Returns the cache to continue the cycle with
(`none` skips the cycle) paired with whether the connections listing was
requested. -/
def resolveSubject_p1 (cacheObj : CacheObj) (connections : List Connection) :
    Option CacheObj × Bool :=
  if isFalsyStr cacheObj.patientId then
    match connections with
    | [] => (none, true)
    | c :: _ => (some (cacheWithProfile cacheObj c), true)
  else (some cacheObj, false)

/-- Embedding of the subject-resolution step of `fetchAndStoreMeasurement`
in `src/main_server.js` (lines 317-332): the `/llu/connections` listing is
requested unconditionally on every cycle and the first entry is used;
nothing about the subject is cached.  Returns the selected connection
(`none` skips the cycle) paired with whether the listing was requested
(always `true`). -/
def resolveSubject_main (_cacheObj : CacheObj) (connections : List Connection) :
    Option Connection × Bool :=
  (connections.head?, true)

/-! ## Claim C8 -/

/-- A session cache that already holds a fully resolved subject profile. -/
def cachedProfileC8 : CacheObj :=
  { token := some "t", userId := some "u", accountIdHash := some "h",
    patientId := some "p1", firstName := some "Ada", lastName := some "L",
    sensor := some ⟨"SN1", 0, 4⟩ }

/-- The single connections-listing entry used in the C8 scenarios. -/
def connectionC8 : Connection := ⟨"p1", "Ada", "L", some ⟨"SN1", 0, 4⟩⟩

/-- Counterexample to C8 as stated: in `src/main_server.js` the cycle
requests the connections listing even when the profile is already fully
cached, so "performs no connections-listing request at all" fails there;
the `part_001` variant does skip the request. -/
theorem profileCache_counterexample :
    (resolveSubject_main cachedProfileC8 [connectionC8]).2 = true ∧
    (resolveSubject_p1 cachedProfileC8 [connectionC8]).2 = false :=
  ⟨rfl, rfl⟩

/-- C8 amended: in the `src/unnamed/part_001` variant, the first successful
resolution requests the listing once and persists the first entry's patient
id, names, and sensor descriptor in the session cache, and every later
cycle whose cache holds a (non-empty) patient id uses the cached profile
and performs no connections-listing request; `src/main_server.js` instead
requests the listing on every cycle (see the counterexample). -/
theorem profileCache_amended (cacheObj : CacheObj) (connections conns2 : List Connection)
    (c : Connection) (rest : List Connection) :
    (isFalsyStr cacheObj.patientId = false →
      resolveSubject_p1 cacheObj connections = (some cacheObj, false)) ∧
    (cacheObj.patientId = none → connections = c :: rest →
      resolveSubject_p1 cacheObj connections = (some (cacheWithProfile cacheObj c), true) ∧
      (cacheWithProfile cacheObj c).patientId = some c.patientId ∧
      (c.patientId ≠ "" →
        resolveSubject_p1 (cacheWithProfile cacheObj c) conns2 =
          (some (cacheWithProfile cacheObj c), false))) := by
  refine ⟨?_, ?_⟩
  · intro h
    simp [resolveSubject_p1, h]
  · intro hp hc
    subst hc
    refine ⟨?_, rfl, ?_⟩
    · simp [resolveSubject_p1, isFalsyStr, hp]
    · intro hne
      simp [resolveSubject_p1, cacheWithProfile, isFalsyStr, hne]

/-- Witness for C8 amended: starting from an empty cache, the first cycle
requests and caches the profile; the next cycle with that cache makes no
listing request and keeps the profile unchanged. -/
theorem profileCache_amended_witness :
    resolveSubject_p1 {} [connectionC8] = (some (cacheWithProfile {} connectionC8), true) ∧
    resolveSubject_p1 (cacheWithProfile {} connectionC8) [] =
      (some (cacheWithProfile {} connectionC8), false) := by
  have h := (profileCache_amended {} [connectionC8] [] connectionC8 []).2 rfl rfl
  exact ⟨h.1, h.2.2 (by decide)⟩
